import Mathlib

/-!
Verification of the DMC Madeira universal carousel (`DMCCarousel` class).

The carousel state and its operations are embedded shallowly: JavaScript
numbers become rationals (all the arithmetic involved is exact), the DOM
side effects (styles, transforms) are dropped, and the 500ms
`setTimeout(() => isAnimating = false)` callback is modelled as an explicit
`settle` step.  The primary variant of the class (the one with mouse-drag
support and a `force` flag on `goTo`) is the one embedded.
-/

namespace DMCCarousel

/-- Partial configuration override attached to a breakpoint key.  In the
source a breakpoint maps to a plain object whose present fields replace the
base option fields (object spread `{...options, ...override}`); absent
fields are `none` here. -/
structure BreakpointOverride where
  slidesPerViewO : Option ℚ := none
  gapO : Option ℚ := none
  deriving DecidableEq, Repr

/-- Carousel options with the constructor defaults
(`slidesPerView: 4, gap: 24, autoplay: false, autoplaySpeed: 5000,
infinite: false, breakpoints: {}`).  `breakpoints` is the list of
(max-width key, override) pairs of the breakpoints object; a JS object has
distinct keys. -/
structure Options where
  slidesPerView : ℚ := 4
  gap : ℚ := 24
  autoplay : Bool := false
  autoplaySpeed : ℚ := 5000
  infinite : Bool := false
  breakpoints : List (ℚ × BreakpointOverride) := []
  deriving DecidableEq, Repr

/-- The mutable instance fields of a `DMCCarousel` that the verified
operations read or write.  `slideCount` is `this.slides.length`.
`autoplayInterval` records whether the interval handle is non-null, and
`liveTimers` counts the interval timers created by `setInterval` and not
yet cleared by `clearInterval` (a ghost field used to reason about timer
leaks). -/
structure State where
  options : Options := {}
  slideCount : ℕ := 0
  currentIndex : ℚ := 0
  maxIndex : ℚ := 0
  slideWidth : ℚ := 0
  isAnimating : Bool := false
  isDragging : Bool := false
  dragStartX : ℚ := 0
  dragMoved : Bool := false
  autoplayInterval : Bool := false
  liveTimers : ℕ := 0
  deriving DecidableEq, Repr

/-- Field initialisation performed by the constructor before `init()` runs:
`currentIndex = 0`, `autoplayInterval = null`, `isAnimating = false`,
drag state cleared.  (`slideWidth`/`maxIndex` are first assigned by
`calculateDimensions`; they start at 0 here.) -/
def initState (opts : Options) (slideCount : ℕ) : State :=
  { options := opts
    slideCount := slideCount
    currentIndex := 0
    maxIndex := 0
    slideWidth := 0
    isAnimating := false
    isDragging := false
    dragStartX := 0
    dragMoved := false
    autoplayInterval := false
    liveTimers := 0 }

/-- Applying one breakpoint override: `options = {...options, ...override}`. -/
def applyOverride (o : Options) (b : BreakpointOverride) : Options :=
  { o with
    slidesPerView := b.slidesPerViewO.getD o.slidesPerView
    gap := b.gapO.getD o.gap }

/-- Insertion into a descending-sorted list of keys. -/
def insertDesc (x : ℚ) : List ℚ → List ℚ
  | [] => [x]
  | y :: ys => if y ≤ x then x :: y :: ys else y :: insertDesc x ys

/-- Sorting the breakpoint keys in descending order, as
`Object.keys(...).map(Number).sort((a, b) => b - a)` does. -/
def sortDesc : List ℚ → List ℚ
  | [] => []
  | x :: xs => insertDesc x (sortDesc xs)

/-- Lookup `this.options.breakpoints[breakpoint]` by key. -/
def lookupBp (bps : List (ℚ × BreakpointOverride)) (k : ℚ) : BreakpointOverride :=
  match bps.find? (fun p => decide (p.1 = k)) with
  | some p => p.2
  | none => {}

/-- `getResponsiveOptions()`: starting from a copy of the base options,
walk the breakpoint keys in descending order and overlay the override of
every key with `windowWidth <= breakpoint`. -/
def getResponsiveOptions (o : Options) (windowWidth : ℚ) : Options :=
  (sortDesc (o.breakpoints.map Prod.fst)).foldl
    (fun acc bp => if windowWidth ≤ bp then applyOverride acc (lookupBp o.breakpoints bp) else acc)
    o

/-- `calculateDimensions()`: with the effective responsive options,
`slideWidth = (containerWidth - gap*(slidesPerView-1)) / slidesPerView` and
`maxIndex = Math.max(0, slides.length - slidesPerView)`. -/
def calculateDimensions (containerWidth windowWidth : ℚ) (s : State) : State :=
  let o := getResponsiveOptions s.options windowWidth
  { s with
    slideWidth := (containerWidth - o.gap * (o.slidesPerView - 1)) / o.slidesPerView
    maxIndex := max 0 ((s.slideCount : ℚ) - o.slidesPerView) }

/-- `goTo(index, force = false)`: drop the call when animating and not
forced, or when the target equals the current index and not forced;
otherwise set `isAnimating` and clamp the index into `[0, maxIndex]`. -/
def goTo (index : ℚ) (force : Bool) (s : State) : State :=
  if s.isAnimating = true ∧ force = false then s
  else if force = false ∧ index = s.currentIndex then s
  else { s with isAnimating := true, currentIndex := max 0 (min index s.maxIndex) }

/-- The `setTimeout(() => { this.isAnimating = false }, 500)` callback
firing at the end of the 500ms animation window. -/
def settle (s : State) : State := { s with isAnimating := false }

/-- `prev()`: no-op while animating; step back by one, or wrap to
`maxIndex` when at 0 in infinite mode. -/
def prev (s : State) : State :=
  if s.isAnimating = true then s
  else if 0 < s.currentIndex then goTo (s.currentIndex - 1) false s
  else if s.options.infinite = true then goTo s.maxIndex false s
  else s

/-- `next()`: no-op while animating; step forward by one, or wrap to 0
when at `maxIndex` in infinite mode. -/
def next (s : State) : State :=
  if s.isAnimating = true then s
  else if s.currentIndex < s.maxIndex then goTo (s.currentIndex + 1) false s
  else if s.options.infinite = true then goTo 0 false s
  else s

/-- `handleMouseUp(e)`: on release of a drag, compute the signed delta
from the drag start, convert it to a whole number of cards with
`Math.round(diff / cardWidth)` where `cardWidth = slideWidth + gap`
(effective gap), and perform a forced `goTo` on the clamped index
`currentIndex - cardsMoved`.  JavaScript `Math.round x = ⌊x + 1/2⌋`,
which is exactly Mathlib `round` on ℚ. -/
def handleMouseUp (pageX windowWidth : ℚ) (s : State) : State :=
  if s.isDragging = false then s
  else
    let s1 : State := { s with isDragging := false }
    let diff := pageX - s1.dragStartX
    let o := getResponsiveOptions s1.options windowWidth
    let cardWidth := s1.slideWidth + o.gap
    let cardsMoved : ℤ := round (diff / cardWidth)
    let newIndex : ℚ := s1.currentIndex - (cardsMoved : ℚ)
    goTo (max 0 (min newIndex s1.maxIndex)) true s1

/-- `updateProgress()`: the progress bar width percentage. -/
def progressWidth (s : State) : ℚ :=
  if 0 < s.maxIndex then (s.currentIndex + 1) / (s.maxIndex + 1) * 100 else 100

/-- `startAutoplay()`: returns at once when an interval handle already
exists, otherwise creates one timer. -/
def startAutoplay (s : State) : State :=
  if s.autoplayInterval = true then s
  else { s with autoplayInterval := true, liveTimers := s.liveTimers + 1 }

/-- `stopAutoplay()`: clears the interval when one exists and nulls the
handle. -/
def stopAutoplay (s : State) : State :=
  if s.autoplayInterval = true then
    { s with autoplayInterval := false, liveTimers := s.liveTimers - 1 }
  else s

/-- One public navigation call, used to quantify over call sequences. -/
inductive Op where
  | prevOp : Op
  | nextOp : Op
  | goToOp (index : ℚ) (force : Bool) : Op
  | settleOp : Op
  deriving DecidableEq, Repr

/-- Run one operation on the state. -/
def applyOp (s : State) : Op → State
  | .prevOp => prev s
  | .nextOp => next s
  | .goToOp i f => goTo i f s
  | .settleOp => settle s

/-- Run a sequence of operations. -/
def applyOps (s : State) (ops : List Op) : State := ops.foldl applyOp s

/-- One `next()` call whose 500ms animation window elapses before the
following call. -/
def nextStep (s : State) : State := settle (next s)

/-! ### Concrete configurations used in the witnesses and examples -/

/-- The breakpoint demo configuration of the specification:
base `slidesPerView = 4`,
`breakpoints = {1200: {slidesPerView: 3}, 600: {slidesPerView: 1.2, gap: 16}}`. -/
def demoOpts : Options :=
  { slidesPerView := 4
    breakpoints :=
      [(1200, { slidesPerViewO := some 3 }),
       (600, { slidesPerViewO := some (6/5), gapO := some 16 })] }

/-- A configuration with a fractional `slidesPerView` of 1.2. -/
def fracOpts : Options := { slidesPerView := 6/5 }

/-- A 10-slide carousel with `slidesPerView = 4` in a 1000px container at a
2000px viewport (no breakpoint matches), as in the specification's
ten-slide example; `inf` chooses the `infinite` flag. -/
def c4State (inf : Bool) : State :=
  calculateDimensions 1000 2000 (initState { infinite := inf } 10)

/-- Six `next()` calls, each animation window elapsing before the
following call, from the ten-slide demo state. -/
def c4Run6 (inf : Bool) : State :=
  nextStep (nextStep (nextStep (nextStep (nextStep (nextStep (c4State inf))))))

/-- A state in the middle of its 500ms animation window. -/
def animState : State := { isAnimating := true }

/-- A state at `currentIndex = 2`, `maxIndex = 6`. -/
def progressDemo : State := { currentIndex := 2, maxIndex := 6 }

/-- A state with `maxIndex = 0`. -/
def progressDemo0 : State := { }

/-- A mid-drag state: drag started at x = 0, `slideWidth = 80`,
effective `gap = 20` (so the card width is 100), `currentIndex = 0`,
`maxIndex = 6`. -/
def dragDemo : State :=
  { options := { gap := 20 }
    currentIndex := 0
    maxIndex := 6
    slideWidth := 80
    isDragging := true
    dragStartX := 0 }

/-- A state whose autoplay timer is running. -/
def autoDemo : State := { autoplayInterval := true, liveTimers := 1 }

/-! ### Helper lemmas -/

/-- Navigation never touches `maxIndex`. -/
theorem goTo_maxIndex (i : ℚ) (f : Bool) (s : State) :
    (goTo i f s).maxIndex = s.maxIndex := by
  unfold goTo
  split
  · rfl
  split
  · rfl
  · rfl

/-- The clamped index of a non-dropped `goTo` stays inside `[0, maxIndex]`
whenever the incoming index did. -/
theorem goTo_index_range (i : ℚ) (f : Bool) (s : State)
    (h0 : 0 ≤ s.currentIndex) (h1 : s.currentIndex ≤ s.maxIndex) :
    0 ≤ (goTo i f s).currentIndex ∧ (goTo i f s).currentIndex ≤ (goTo i f s).maxIndex := by
  unfold goTo
  split
  · exact ⟨h0, h1⟩
  split
  · exact ⟨h0, h1⟩
  · refine ⟨le_max_left 0 _, ?_⟩
    exact max_le (le_trans h0 h1) (min_le_right _ _)

/-- Clamping into `[0, m]` is idempotent. -/
theorem clamp_clamp (x m : ℚ) :
    max 0 (min (max 0 (min x m)) m) = max 0 (min x m) := by
  rcases le_total m 0 with hm | hm
  · have h1 : min x m ≤ 0 := le_trans (min_le_right x m) hm
    rw [max_eq_left h1, min_eq_right hm, max_eq_left hm]
  · have h2 : max 0 (min x m) ≤ m := max_le hm (min_le_right x m)
    rw [min_eq_left h2, max_eq_right (le_max_left 0 (min x m))]

/-- Folding with a guard equals folding over the filtered list. -/
theorem foldl_guard_filter (p : ℚ → Prop) [DecidablePred p]
    (g : Options → ℚ → Options) :
    ∀ (l : List ℚ) (acc : Options),
      l.foldl (fun a k => if p k then g a k else a) acc =
        (l.filter (fun k => decide (p k))).foldl g acc := by
  intro l
  induction l with
  | nil => intro acc; rfl
  | cons x xs ih =>
    intro acc
    by_cases h : p x
    · simp [List.filter_cons, if_pos h, decide_eq_true h, ih]
    · simp [List.filter_cons, if_neg h, decide_eq_false h, ih]

/-- A `goTo` on a state pinned at `maxIndex = 0`, `currentIndex = 0`
leaves both fields there. -/
theorem goTo_zero (i : ℚ) (f : Bool) (s : State)
    (hm : s.maxIndex = 0) (hc : s.currentIndex = 0) :
    (goTo i f s).maxIndex = 0 ∧ (goTo i f s).currentIndex = 0 := by
  unfold goTo
  split
  · exact ⟨hm, hc⟩
  split
  · exact ⟨hm, hc⟩
  · refine ⟨hm, ?_⟩
    show max 0 (min i s.maxIndex) = 0
    rw [hm]
    exact max_eq_left (min_le_right i 0)

/-- Any single operation preserves `maxIndex = 0 ∧ currentIndex = 0`. -/
theorem applyOp_zero (s : State) (op : Op)
    (hm : s.maxIndex = 0) (hc : s.currentIndex = 0) :
    (applyOp s op).maxIndex = 0 ∧ (applyOp s op).currentIndex = 0 := by
  cases op with
  | prevOp =>
    show (prev s).maxIndex = 0 ∧ (prev s).currentIndex = 0
    unfold prev
    split
    · exact ⟨hm, hc⟩
    split
    · exact goTo_zero _ _ _ hm hc
    split
    · exact goTo_zero _ _ _ hm hc
    · exact ⟨hm, hc⟩
  | nextOp =>
    show (next s).maxIndex = 0 ∧ (next s).currentIndex = 0
    unfold next
    split
    · exact ⟨hm, hc⟩
    split
    · exact goTo_zero _ _ _ hm hc
    split
    · exact goTo_zero _ _ _ hm hc
    · exact ⟨hm, hc⟩
  | goToOp i f => exact goTo_zero i f s hm hc
  | settleOp => exact ⟨hm, hc⟩

/-- Any sequence of operations preserves `maxIndex = 0 ∧ currentIndex = 0`. -/
theorem applyOps_zero (ops : List Op) :
    ∀ (s : State), s.maxIndex = 0 → s.currentIndex = 0 →
      (applyOps s ops).maxIndex = 0 ∧ (applyOps s ops).currentIndex = 0 := by
  induction ops with
  | nil => intro s hm hc; exact ⟨hm, hc⟩
  | cons op rest ih =>
    intro s hm hc
    have h := applyOp_zero s op hm hc
    exact ih (applyOp s op) h.1 h.2

/-! ### The claims -/

/-- C1: for every valid configuration (`slidesPerView > 0`) and every
state with `0 ≤ currentIndex ≤ maxIndex`, after any single call to
`goTo`, `prev`, or `next` the state still satisfies
`0 ≤ currentIndex ≤ maxIndex`. -/
theorem c1_index_range_preserved (s : State) (index : ℚ) (force : Bool)
    (_hspv : 0 < s.options.slidesPerView)
    (h0 : 0 ≤ s.currentIndex) (h1 : s.currentIndex ≤ s.maxIndex) :
    (0 ≤ (goTo index force s).currentIndex ∧
      (goTo index force s).currentIndex ≤ (goTo index force s).maxIndex) ∧
    (0 ≤ (prev s).currentIndex ∧ (prev s).currentIndex ≤ (prev s).maxIndex) ∧
    (0 ≤ (next s).currentIndex ∧ (next s).currentIndex ≤ (next s).maxIndex) := by
  refine ⟨goTo_index_range index force s h0 h1, ?_, ?_⟩
  · unfold prev
    split
    · exact ⟨h0, h1⟩
    split
    · exact goTo_index_range _ _ _ h0 h1
    split
    · exact goTo_index_range _ _ _ h0 h1
    · exact ⟨h0, h1⟩
  · unfold next
    split
    · exact ⟨h0, h1⟩
    split
    · exact goTo_index_range _ _ _ h0 h1
    split
    · exact goTo_index_range _ _ _ h0 h1
    · exact ⟨h0, h1⟩

/-- Witness for C1 at a concrete in-range state. -/
theorem c1_index_range_preserved_witness :
    (0 ≤ (goTo 5 false progressDemo).currentIndex ∧
      (goTo 5 false progressDemo).currentIndex ≤ (goTo 5 false progressDemo).maxIndex) ∧
    (0 ≤ (prev progressDemo).currentIndex ∧
      (prev progressDemo).currentIndex ≤ (prev progressDemo).maxIndex) ∧
    (0 ≤ (next progressDemo).currentIndex ∧
      (next progressDemo).currentIndex ≤ (next progressDemo).maxIndex) :=
  c1_index_range_preserved progressDemo 5 false (by norm_num [progressDemo])
    (by norm_num [progressDemo]) (by norm_num [progressDemo])

/-- C3: after every dimension recalculation, `maxIndex` equals
`max(0, slideCount − slidesPerView)` and `slideWidth` equals
`(containerWidth − gap×(slidesPerView−1)) / slidesPerView`, both computed
with the effective responsive options for the current viewport width. -/
theorem c3_dimension_formulas (s : State) (containerWidth windowWidth : ℚ) :
    (calculateDimensions containerWidth windowWidth s).maxIndex =
      max 0 ((s.slideCount : ℚ) - (getResponsiveOptions s.options windowWidth).slidesPerView) ∧
    (calculateDimensions containerWidth windowWidth s).slideWidth =
      (containerWidth - (getResponsiveOptions s.options windowWidth).gap *
          ((getResponsiveOptions s.options windowWidth).slidesPerView - 1)) /
        (getResponsiveOptions s.options windowWidth).slidesPerView :=
  ⟨rfl, rfl⟩

/-- C5: a `goTo` with `force = false` is dropped — the whole state is
returned unchanged — when the carousel is animating or when the target
index equals the current index. -/
theorem c5_goTo_dropped (s : State) (index : ℚ)
    (h : s.isAnimating = true ∨ index = s.currentIndex) :
    goTo index false s = s := by
  unfold goTo
  rcases h with h | h
  · rw [if_pos ⟨h, rfl⟩]
  · by_cases ha : s.isAnimating = true
    · rw [if_pos ⟨ha, rfl⟩]
    · rw [if_neg (fun hc => ha hc.1), if_pos ⟨rfl, h⟩]

/-- Witness for C5: a non-forced `goTo` during an animation window is the
identity. -/
theorem c5_goTo_dropped_witness : goTo 3 false animState = animState :=
  c5_goTo_dropped animState 3 (Or.inl rfl)

/-- C7: the progress indicator width is
`((currentIndex+1)/(maxIndex+1))×100` when `maxIndex > 0` and 100 when
`maxIndex = 0`. -/
theorem c7_progress_formula (s : State) :
    (0 < s.maxIndex →
      progressWidth s = (s.currentIndex + 1) / (s.maxIndex + 1) * 100) ∧
    (s.maxIndex = 0 → progressWidth s = 100) := by
  constructor
  · intro h
    rw [progressWidth, if_pos h]
  · intro h
    rw [progressWidth, if_neg (by rw [h]; exact lt_irrefl 0)]

/-- Witness for C7: `currentIndex = 2`, `maxIndex = 6` gives
`3/7 × 100 = 300/7 ≈ 42.857`, and `maxIndex = 0` gives 100. -/
theorem c7_progress_formula_witness :
    progressWidth progressDemo = 300/7 ∧ progressWidth progressDemo0 = 100 := by
  constructor
  · have h := (c7_progress_formula progressDemo).1 (by norm_num [progressDemo])
    rw [h]
    norm_num [progressDemo]
  · exact (c7_progress_formula progressDemo0).2 rfl

/-- C9: under the timer-count invariant (the live-timer count is 1 when
the interval handle exists and 0 otherwise), `startAutoplay` is a no-op
when a timer already exists, the carousel never holds more than one
timer, and `stopAutoplay` always leaves it with no timer and a null
handle. -/
theorem c9_single_autoplay_timer (s : State)
    (h : s.liveTimers = if s.autoplayInterval = true then 1 else 0) :
    (s.autoplayInterval = true → startAutoplay s = s) ∧
    (startAutoplay s).liveTimers ≤ 1 ∧
    (stopAutoplay s).liveTimers = 0 ∧
    (stopAutoplay s).autoplayInterval = false := by
  cases hA : s.autoplayInterval with
  | false =>
    simp only [hA, Bool.false_eq_true, if_false] at h
    simp [startAutoplay, stopAutoplay, hA, h]
  | true =>
    simp only [hA, if_true] at h
    simp [startAutoplay, stopAutoplay, hA, h]

/-- Witness for C9 at a running-timer state. -/
theorem c9_single_autoplay_timer_witness :
    startAutoplay autoDemo = autoDemo ∧ (stopAutoplay autoDemo).liveTimers = 0 :=
  ⟨(c9_single_autoplay_timer autoDemo rfl).1 rfl,
   (c9_single_autoplay_timer autoDemo rfl).2.2.1⟩

/-- C10: when `slideCount ≤ slidesPerView` (so the computed `maxIndex` is
0) and `infinite = false`, `currentIndex` is 0 after construction and
stays 0 under every sequence of `prev`, `next`, `goTo` (and
animation-window) operations. -/
theorem c10_never_navigates (opts : Options) (n : ℕ)
    (containerWidth windowWidth : ℚ) (ops : List Op)
    (hn : (n : ℚ) ≤ (getResponsiveOptions opts windowWidth).slidesPerView)
    (_hinf : opts.infinite = false) :
    (initState opts n).currentIndex = 0 ∧
    (applyOps (calculateDimensions containerWidth windowWidth (initState opts n)) ops).currentIndex = 0 := by
  refine ⟨rfl, ?_⟩
  have hm : (calculateDimensions containerWidth windowWidth (initState opts n)).maxIndex = 0 := by
    show max 0 ((n : ℚ) - (getResponsiveOptions opts windowWidth).slidesPerView) = 0
    exact max_eq_left (sub_nonpos.mpr hn)
  exact (applyOps_zero ops _ hm rfl).2

/-- Witness for C10: 3 slides, `slidesPerView = 4`, a four-call sequence. -/
theorem c10_never_navigates_witness :
    (initState { } 3).currentIndex = 0 ∧
    (applyOps (calculateDimensions 1000 2000 (initState { } 3))
      [Op.nextOp, Op.settleOp, Op.prevOp, Op.goToOp 5 true]).currentIndex = 0 :=
  c10_never_navigates { } 3 1000 2000 [Op.nextOp, Op.settleOp, Op.prevOp, Op.goToOp 5 true]
    (by norm_num [getResponsiveOptions, sortDesc]) rfl

/-- C2 counterexample: with 10 slides and an effective
`slidesPerView = 1.2`, the code computes `maxIndex = 10 − 1.2 = 8.8`,
which is not the claimed integer `max(0, 10 − ceil(1.2)) = 8`. -/
theorem c2_counterexample_fractional_maxIndex :
    (calculateDimensions 400 500 (initState fracOpts 10)).maxIndex = 44/5 ∧
    (calculateDimensions 400 500 (initState fracOpts 10)).maxIndex ≠
      ((max 0 (10 - ⌈(6/5 : ℚ)⌉) : ℤ) : ℚ) := by
  have hval : (calculateDimensions 400 500 (initState fracOpts 10)).maxIndex = 44/5 := by
    show max 0 (((10 : ℕ) : ℚ) - (getResponsiveOptions fracOpts 500).slidesPerView) = 44/5
    norm_num [fracOpts, getResponsiveOptions, sortDesc, max_def]
  refine ⟨hval, ?_⟩
  rw [hval]
  have hceil : (⌈(6/5 : ℚ)⌉ : ℤ) = 2 := by
    rw [Int.ceil_eq_iff]
    norm_num
  rw [hceil]
  norm_num

/-- C2 amended: after every dimension recalculation `maxIndex` equals
`max(0, slideCount − slidesPerView)` with the effective (possibly
fractional) `slidesPerView` and no ceiling applied; it is an integer
whenever the effective `slidesPerView` is an integer, but is fractional
when `slidesPerView` is fractional. -/
theorem c2_maxIndex_integer_when_spv_integer (s : State)
    (containerWidth windowWidth : ℚ) (k : ℤ)
    (hk : (getResponsiveOptions s.options windowWidth).slidesPerView = (k : ℚ)) :
    (calculateDimensions containerWidth windowWidth s).maxIndex =
      max 0 ((s.slideCount : ℚ) - (getResponsiveOptions s.options windowWidth).slidesPerView) ∧
    ∃ m : ℤ, (calculateDimensions containerWidth windowWidth s).maxIndex = (m : ℚ) := by
  refine ⟨rfl, ⟨max 0 ((s.slideCount : ℤ) - k), ?_⟩⟩
  show max 0 ((s.slideCount : ℚ) - (getResponsiveOptions s.options windowWidth).slidesPerView) = _
  rw [hk, Int.cast_max]
  push_cast
  rfl

/-- Witness for C2 (amended) at the integer configuration
`slidesPerView = 4`, 10 slides. -/
theorem c2_maxIndex_integer_when_spv_integer_witness :
    (calculateDimensions 1000 2000 (initState { } 10)).maxIndex =
      max 0 (((initState { } 10).slideCount : ℚ) -
        (getResponsiveOptions (initState { } 10).options 2000).slidesPerView) ∧
    ∃ m : ℤ, (calculateDimensions 1000 2000 (initState { } 10)).maxIndex = (m : ℚ) :=
  c2_maxIndex_integer_when_spv_integer (initState { } 10) 1000 2000 4
    (by norm_num [initState, getResponsiveOptions, sortDesc])

/-- C4: with 10 slides and `slidesPerView = 4`, `maxIndex = 6`; six
`next()` calls from index 0 (each animation window elapsing in between)
reach index 6; a seventh `next()` leaves the index at 6 when
`infinite = false` and wraps it to 0 when `infinite = true`. -/
theorem c4_ten_slides_navigation :
    (c4State false).maxIndex = 6 ∧
    (c4State false).currentIndex = 0 ∧
    (c4Run6 false).currentIndex = 6 ∧
    (next (c4Run6 false)).currentIndex = 6 ∧
    (next (c4Run6 true)).currentIndex = 0 := by
  refine ⟨?_, rfl, ?_, ?_, ?_⟩ <;>
    norm_num [c4Run6, c4State, nextStep, next, settle, goTo, calculateDimensions,
      initState, getResponsiveOptions, sortDesc, max_def, min_def]

/-- Configuration resolution written the way the specification words it:
the base configuration overlaid by the override of every breakpoint key
that is at least the viewport width, taken in descending key order. -/
def specEffectiveOptions (o : Options) (windowWidth : ℚ) : Options :=
  ((sortDesc (o.breakpoints.map Prod.fst)).filter
      (fun k => decide (windowWidth ≤ k))).foldl
    (fun acc k => applyOverride acc (lookupBp o.breakpoints k)) o

/-- C6: for every viewport width the effective configuration is the base
configuration overlaid by every breakpoint override whose max-width key
is ≥ the width, in descending key order; with base `slidesPerView = 4`
and breakpoints `{1200: {slidesPerView: 3}, 600: {slidesPerView: 1.2,
gap: 16}}`, width 700 resolves to `slidesPerView = 3` (base gap 24
kept) and width 500 to `slidesPerView = 1.2`, `gap = 16`. -/
theorem c6_breakpoint_resolution (o : Options) (windowWidth : ℚ) :
    getResponsiveOptions o windowWidth = specEffectiveOptions o windowWidth ∧
    (getResponsiveOptions demoOpts 700).slidesPerView = 3 ∧
    (getResponsiveOptions demoOpts 700).gap = 24 ∧
    (getResponsiveOptions demoOpts 500).slidesPerView = 6/5 ∧
    (getResponsiveOptions demoOpts 500).gap = 16 := by
  refine ⟨?_, ?_, ?_, ?_, ?_⟩
  · rw [getResponsiveOptions, specEffectiveOptions,
      foldl_guard_filter (fun k => windowWidth ≤ k)]
  all_goals
    norm_num [demoOpts, getResponsiveOptions, sortDesc, insertDesc, lookupBp, applyOverride]

/-- C8: on mouse-drag release the carousel moves by
`round(delta / cardWidth)` cards, `cardWidth = slideWidth + gap`, via a
forced `goTo` on `currentIndex − cardsMoved` clamped into
`[0, maxIndex]`; the released state is no longer dragging and a
transition is in flight. -/
theorem c8_drag_release (s : State) (pageX windowWidth : ℚ)
    (h : s.isDragging = true) :
    (handleMouseUp pageX windowWidth s).currentIndex =
      max 0 (min (s.currentIndex -
        ((round ((pageX - s.dragStartX) /
          (s.slideWidth + (getResponsiveOptions s.options windowWidth).gap)) : ℤ) : ℚ))
        s.maxIndex) ∧
    (handleMouseUp pageX windowWidth s).isAnimating = true ∧
    (handleMouseUp pageX windowWidth s).isDragging = false := by
  unfold handleMouseUp
  rw [if_neg (by simp [h])]
  unfold goTo
  rw [if_neg (by simp)]
  rw [if_neg (by simp)]
  exact ⟨clamp_clamp _ _, rfl, rfl⟩

/-- Witness for C8: a +120px drag with card width 100 rounds to one card
back from index 0 and clamps to 0. -/
theorem c8_drag_release_witness :
    (handleMouseUp 120 1000 dragDemo).currentIndex = 0 := by
  rw [(c8_drag_release dragDemo 120 1000 rfl).1]
  norm_num [dragDemo, getResponsiveOptions, sortDesc, round_eq, max_def, min_def]

end DMCCarousel
